import Mathlib

/-!
Shallow embedding of the "skills" repository's script logic, and proofs of the
spec's claims about it.

Components embedded here:
* `skills/pptx/scripts/replace.py` — the PowerPoint text replacement engine
  (validation of replacement keys, the clear/rewrite pass, and the
  overflow/warning quality gate before saving).
* `skills/pdf/scripts/extract_form_field_info.py` — the PDF form-field
  extractor (field classification, location resolution, radio-group assembly,
  and the final sort).
* `skills/pptx/ooxml/scripts/validation/docx.py` — the Word-document
  validator's `validate()` orchestration.
* `skills/slack-gif-creator/core/gif_builder.py` — frame deduplication and
  the `save` pipeline's emoji optimisation.
* `skills/pptx/scripts/thumbnail.py` — grid chunking and cell labels.
* `skills/slack-gif-creator/core/validators.py` — `validate_gif`.

Numbers that the Python scripts handle as floats are modelled as rationals
(`ℚ`); external library calls (pptx rendering, PIL image decoding, palette
quantisation, filesystem access) are modelled as explicit inputs or function
parameters, since the scripts treat them as black boxes.
-/

namespace Skills

/-! ## Python string ordering

Python's `sorted` on strings compares by Unicode code points,
lexicographically. `pyStrLtb a b` decides `a < b` in that order; it is used to
model the `sorted(...)` call in `replace.py`'s `validate_replacements`.
-/

/-- Lexicographic code-point comparison of char lists, as Python compares
strings with `<`. -/
def pyCharsLtb : List Char → List Char → Bool
  | [], [] => false
  | [], _ :: _ => true
  | _ :: _, [] => false
  | a :: as, b :: bs => if a < b then true else if b < a then false else pyCharsLtb as bs

/-- Python's `a <= b` on strings (total preorder used by `sorted`). -/
def pyStrLe (a b : String) : Prop := pyCharsLtb b.data a.data = false

instance : DecidableRel pyStrLe := fun a b => by unfold pyStrLe; infer_instance

/-- Python's `sorted` on a list of strings (ascending code-point order;
stable, which `List.insertionSort` also is). -/
def pySorted (l : List String) : List String := List.insertionSort pyStrLe l

/-! ## Embedding of `pptx/scripts/replace.py`

The inventory produced by the external `inventory.py` is modelled as an
association list `slide_key → shape_key → ShapeData`, keeping exactly the
`ShapeData` fields `replace.py` reads: `frame_overflow_bottom`, `warnings`,
and `paragraphs` (of which only the paragraph text is consumed). -/

/-- One paragraph of a shape's text frame; `replace.py` only ever reads its
`text`. -/
structure Paragraph where
  text : String
deriving DecidableEq

/-- The slice of `inventory.py`'s per-shape record consumed by `replace.py`. -/
structure ShapeData where
  frame_overflow_bottom : Option ℚ
  warnings : List String
  paragraphs : List Paragraph
deriving DecidableEq

/-- The inventory: `slide_key → shape_key → ShapeData`, in insertion order as
a Python dict iterates. -/
abbrev Inventory := List (String × List (String × ShapeData))

/-- One shape's entry in the caller-supplied replacement JSON: the
`paragraphs` key is present (`some`) or absent (`none`). -/
structure ReplShape where
  paragraphs : Option (List Paragraph)
deriving DecidableEq

/-- The replacement document: `slide_key → shape_key → ReplShape`. -/
abbrev Replacements := List (String × List (String × ReplShape))

/-- Python's `str.startswith`, decided structurally on the char lists (the
library `String.startsWith` does not reduce in the kernel). -/
def py_startswith (s pre : String) : Bool := pre.data.isPrefixOf s.data

/-- Embedding of `detect_frame_overflow`: keep, per slide, the shapes whose
`frame_overflow_bottom` is not `None`; slides with no such shape get no entry
at all. -/
def detect_frame_overflow (inventory : Inventory) : List (String × List (String × ℚ)) :=
  (inventory.map (fun s =>
    (s.1, s.2.filterMap (fun sh => sh.2.frame_overflow_bottom.map (fun v => (sh.1, v)))))).filter
    (fun s => ¬ s.2.isEmpty)

/-- The preview `validate_replacements` builds for an inventoried shape with
no replacement entry: the shape key, annotated with the first 50 characters
of its first paragraph's text (plus `...` when truncated) whenever the shape
has a first paragraph with non-empty text. -/
def shape_preview (k : String) (sd : ShapeData) : String :=
  match sd.paragraphs with
  | [] => k
  | p :: _ =>
    if p.text = "" then k
    else k ++ " ('" ++ (p.text.take 50 ++ if p.text.length > 50 then "..." else "") ++ "')"

/-- Embedding of the `unused_with_content` list built inside
`validate_replacements`: every inventoried shape on the slide that has no
entry in the slide's replacement dict, with its preview. -/
def unused_with_content (inv_shapes : List (String × ShapeData))
    (shapes_data : List (String × ReplShape)) : List String :=
  inv_shapes.filterMap (fun ksh =>
    if (shapes_data.lookup ksh.1).isSome then none else some (shape_preview ksh.1 ksh.2))

/-- The error message for a replacement slide key absent from the inventory. -/
def slide_not_found_error (slide_key : String) : String :=
  "幻灯片 '" ++ slide_key ++ "' 在 inventory 中未找到"

/-- The error message for a replacement shape key absent from its slide's
inventory, listing (sorted) every inventoried shape on that slide that has no
replacement entry. -/
def shape_not_found_error (slide_key shape_key : String) (unused : List String) : String :=
  "形状 '" ++ shape_key ++ "' 在 '" ++ slide_key ++ "' 上未找到。 未定义 replacements 的形状：" ++
    (if unused.isEmpty then "无" else String.intercalate ", " (pySorted unused))

/-- Embedding of `validate_replacements`: walk the replacement document,
skip keys not starting with `slide-`, report unknown slide keys and unknown
shape keys, collecting every error (no fail-on-first). -/
def validate_replacements (inventory : Inventory) (replacements : Replacements) : List String :=
  replacements.flatMap (fun srepl =>
    if ¬ py_startswith srepl.1 "slide-" then []
    else
      match inventory.lookup srepl.1 with
      | none => [slide_not_found_error srepl.1]
      | some inv_shapes =>
        srepl.2.filterMap (fun shk =>
          if (inv_shapes.lookup shk.1).isSome then none
          else some (shape_not_found_error srepl.1 shk.1 (unused_with_content inv_shapes srepl.2))))

/-- The mutation pass of `apply_replacements`: every inventoried shape on the
`slide-*` slides has its text frame cleared (leaving one empty paragraph, as
`text_frame.clear()` does); when the replacement document supplies a
`paragraphs` list for that slide/shape pair, the shape's paragraphs are
rebuilt from it. -/
def clear_and_replace (inventory : Inventory) (replacements : Replacements) : Inventory :=
  inventory.map (fun s =>
    if ¬ py_startswith s.1 "slide-" then s
    else
      (s.1, s.2.map (fun sh =>
        match ((replacements.lookup s.1).getD []).lookup sh.1 |>.bind (·.paragraphs) with
        | none => (sh.1, { sh.2 with paragraphs := [⟨""⟩] })
        | some ps => (sh.1, { sh.2 with paragraphs := ps }))))

/-- One entry of the post-edit overflow-worsening report. -/
structure OverflowError where
  slide_key : String
  shape_key : String
  original : ℚ
  new_overflow : ℚ
deriving DecidableEq

/-- Embedding of the overflow comparison in `apply_replacements`: for every
shape in the post-edit overflow map, fetch the pre-edit overflow (0 when the
shape had none) and record an error when the post-edit value exceeds it by
more than the 0.01-inch tolerance. -/
def overflow_errors (original_overflow updated_overflow : List (String × List (String × ℚ))) :
    List OverflowError :=
  updated_overflow.flatMap (fun s =>
    s.2.filterMap (fun sh =>
      let original := (((original_overflow.lookup s.1).getD []).lookup sh.1).getD 0
      if sh.2 > original + mkRat 1 100 then some ⟨s.1, sh.1, original, sh.2⟩ else none))

/-- Embedding of the warning collection over the post-edit inventory. -/
def collect_warnings (updated_inventory : Inventory) : List String :=
  updated_inventory.flatMap (fun s =>
    s.2.flatMap (fun sh => sh.2.warnings.map (fun w => s.1 ++ "/" ++ sh.1 ++ "：" ++ w)))

/-- Outcome of `apply_replacements`: a validation failure (raised before any
mutation), a quality-gate failure (raised after editing, before the final
save), or a successful save of the edited presentation. -/
inductive ApplyResult
  | validation_error (errors : List String)
  | quality_gate_error (oerrs : List OverflowError) (warns : List String)
  | saved (final : Inventory)
deriving DecidableEq

/-- Embedding of `apply_replacements`. The re-extraction of the inventory from
the temporary saved copy goes through pptx rendering, so it is modelled as an
explicit function `reinventory` from the edited in-memory state to the fresh
post-edit inventory. -/
def apply_replacements (reinventory : Inventory → Inventory) (inventory : Inventory)
    (replacements : Replacements) : ApplyResult :=
  let original_overflow := detect_frame_overflow inventory
  let errors := validate_replacements inventory replacements
  if errors ≠ [] then .validation_error errors
  else
    let mutated := clear_and_replace inventory replacements
    let updated_inventory := reinventory mutated
    let updated_overflow := detect_frame_overflow updated_inventory
    let oerrs := overflow_errors original_overflow updated_overflow
    let warns := collect_warnings updated_inventory
    if oerrs ≠ [] ∨ warns ≠ [] then .quality_gate_error oerrs warns
    else .saved mutated

/-! ## Embedding of `pdf/scripts/extract_form_field_info.py`

The pypdf object graph is modelled by the data this script reads: the
flattened field dict (`reader.get_fields()`), and per page the annotation
list, where each page annotation carries its `/T`-name parent chain, an
optional `/Rect`, and the optional `/AP` → `/N` state-name list. Rectangles
are four rational coordinates. -/

/-- A four-number PDF bounding rectangle `[x0, y0, x1, y1]`. -/
abbrev PdfRect := ℚ × ℚ × ℚ × ℚ

/-- One entry of `reader.get_fields()`, with the keys the script reads:
`/FT`, `/Kids` (presence only), and `/_States_` (plain state names for
button fields, `(value, text)` pairs for choice fields). -/
structure PdfField where
  field_id : String
  ft : Option String
  has_kids : Bool
  states : List String
  choice_states : List (String × String)
deriving DecidableEq

/-- One page annotation: the `/T` components found while walking the
annotation's `/Parent` chain (starting at the annotation itself), its
optional `/Rect`, and the optional `/AP` → `/N` appearance-state names. -/
structure PdfAnnot where
  chain : List (Option String)
  rect : Option PdfRect
  ap_n : Option (List String)
deriving DecidableEq

/-- A PDF document as this script consumes it: the flattened form-field dict
and each page's annotation list. -/
structure PdfDoc where
  fields : List PdfField
  pages : List (List PdfAnnot)

/-- Embedding of `get_full_annotation_field_id`: collect the `/T` names along
the parent chain, reverse them, and join with `.`; `None` when no component
has a name. -/
def get_full_annotation_field_id (chain : List (Option String)) : Option String :=
  let components := chain.filterMap id
  if components.isEmpty then none else some (String.intercalate "." components.reverse)

/-- The descriptor `make_field_dict` emits, before location resolution:
`checked_value` / `unchecked_value` are `none` when the corresponding dict
keys were never assigned, and `warned` records whether the checkbox
ambiguous-states warning was printed. `page` and `rect` are filled in later
by the page-annotation scan. -/
structure FieldInfo where
  field_id : String
  type : String
  checked_value : Option String
  unchecked_value : Option String
  warned : Bool
  choice_options : List (String × String)
  page : Option Nat
  rect : Option PdfRect
deriving DecidableEq

/-- Embedding of `make_field_dict`. For a `/Btn` field the two-state logic
runs only when the declared state list has exactly two entries; otherwise no
checked/unchecked values are assigned and no warning is printed. -/
def make_field_dict (f : PdfField) : FieldInfo :=
  let base : FieldInfo :=
    { field_id := f.field_id, type := "", checked_value := none, unchecked_value := none
      warned := false, choice_options := [], page := none, rect := none }
  match f.ft with
  | some "/Tx" => { base with type := "text" }
  | some "/Btn" =>
    match f.states with
    | [s0, s1] =>
      if s0 = "/Off" ∨ s1 = "/Off" then
        { base with type := "checkbox"
                    checked_value := some (if s0 ≠ "/Off" then s0 else s1)
                    unchecked_value := some "/Off" }
      else
        { base with type := "checkbox", warned := true
                    checked_value := some s0, unchecked_value := some s1 }
    | _ => { base with type := "checkbox" }
  | some "/Ch" => { base with type := "choice", choice_options := f.choice_states }
  | some other => { base with type := "unknown (" ++ other ++ ")" }
  | none => { base with type := "unknown (None)" }

/-- One option of a radio group: the single non-`/Off` appearance state and
the option annotation's rectangle. -/
structure RadioOption where
  value : String
  rect : Option PdfRect
deriving DecidableEq

/-- A synthesized radio-group descriptor; `page` is set when the group is
first created, from the first matching option annotation. -/
structure RadioGroup where
  field_id : String
  page : Nat
  radio_options : List RadioOption
deriving DecidableEq

/-- Append a radio option to its group, creating the group (with the current
page) on first sight, as `radio_fields_by_id` does. -/
def add_radio_option (radios : List RadioGroup) (fid : String) (page : Nat)
    (opt : RadioOption) : List RadioGroup :=
  match radios with
  | [] => [⟨fid, page, [opt]⟩]
  | g :: gs =>
    if g.field_id = fid then ⟨g.field_id, g.page, g.radio_options ++ [opt]⟩ :: gs
    else g :: add_radio_option gs fid page opt

/-- State threaded through the page-annotation scan: the per-field infos
(keyed association list, as `field_info_by_id`) and the radio groups
assembled so far. -/
structure ScanState where
  infos : List (String × FieldInfo)
  radios : List RadioGroup

/-- Update the info stored under a field id with a freshly seen page number
and rectangle (dict assignment in the Python). -/
def set_location (infos : List (String × FieldInfo)) (fid : String) (page : Nat)
    (rect : Option PdfRect) : List (String × FieldInfo) :=
  infos.map (fun kv =>
    if kv.1 = fid then (kv.1, { kv.2 with page := some page, rect := rect }) else kv)

/-- Process one page annotation: resolve its full field id; attach page and
rect when it names a known non-container field; otherwise, when it names a
candidate radio group and its `/AP` → `/N` dict exists and has exactly one
non-`/Off` state, register that radio option (missing `/AP` or `/N` is the
caught `KeyError`, a silent skip). -/
def process_annot (possible_radio_names : List String) (page : Nat) (st : ScanState)
    (ann : PdfAnnot) : ScanState :=
  match get_full_annotation_field_id ann.chain with
  | none => st
  | some fid =>
    if (st.infos.lookup fid).isSome then
      { st with infos := set_location st.infos fid page ann.rect }
    else if fid ∈ possible_radio_names then
      match ann.ap_n with
      | none => st
      | some names =>
        match names.filter (· ≠ "/Off") with
        | [v] => { st with radios := add_radio_option st.radios fid page ⟨v, ann.rect⟩ }
        | _ => st
    else st

/-- The composite sort key of `sort_key`: page number, then the negated y
coordinate, then the x coordinate of the relevant rectangle (a missing
rectangle counts as `[0, 0, 0, 0]`). -/
def descriptor_key : Sum FieldInfo RadioGroup → Nat × ℚ × ℚ
  | .inl fi =>
    let r := fi.rect.getD (0, 0, 0, 0)
    (fi.page.getD 0, -r.2.1, r.1)
  | .inr rg =>
    let r := ((rg.radio_options.headD ⟨"", none⟩).rect).getD (0, 0, 0, 0)
    (rg.page, -r.2.1, r.1)

/-- Lexicographic order on sort keys, as Python compares the key lists. -/
def key_le (a b : Nat × ℚ × ℚ) : Prop :=
  a.1 < b.1 ∨ (a.1 = b.1 ∧ (a.2.1 < b.2.1 ∨ (a.2.1 = b.2.1 ∧ a.2.2 ≤ b.2.2)))

instance : DecidableRel key_le := fun a b => by unfold key_le; infer_instance

/-- Order on emitted descriptors induced by `descriptor_key`. -/
def descriptor_le (a b : Sum FieldInfo RadioGroup) : Prop :=
  key_le (descriptor_key a) (descriptor_key b)

instance : DecidableRel descriptor_le := fun a b => by unfold descriptor_le; infer_instance

/-- The non-container entries of the flattened field dict, classified by
`make_field_dict` (`field_info_by_id` in the script). -/
def field_info_by_id (pdf : PdfDoc) : List (String × FieldInfo) :=
  pdf.fields.filterMap (fun f =>
    if f.has_kids then none else some (f.field_id, make_field_dict f))

/-- The container button fields stashed as candidate radio-group names. -/
def possible_radio_names (pdf : PdfDoc) : List String :=
  pdf.fields.filterMap (fun f =>
    if f.has_kids ∧ f.ft = some "/Btn" then some f.field_id else none)

/-- The page-annotation scan of `get_field_info`: every page's annotations in
order, with 1-based page numbers. -/
def scan_state (pdf : PdfDoc) : ScanState :=
  pdf.pages.enum.foldl
    (fun st page =>
      page.2.foldl (process_annot (possible_radio_names pdf) (page.1 + 1)) st)
    ⟨field_info_by_id pdf, []⟩

/-- The post-scan field infos that obtained a location. -/
def fields_with_location (pdf : PdfDoc) : List FieldInfo :=
  ((scan_state pdf).infos.map (·.2)).filter (fun fi => fi.page.isSome)

/-- The field ids reported (and dropped) for never obtaining a location. -/
def dropped_field_ids (pdf : PdfDoc) : List String :=
  (((scan_state pdf).infos.map (·.2)).filter (fun fi => fi.page.isNone)).map (·.field_id)

/-- The located field descriptors plus the assembled radio groups, in the
order they are concatenated before sorting. -/
def located_descriptors (pdf : PdfDoc) : List (Sum FieldInfo RadioGroup) :=
  (fields_with_location pdf).map Sum.inl ++ (scan_state pdf).radios.map Sum.inr

/-- Embedding of `get_field_info`, also returning the ids of the fields that
were dropped (and reported) for lacking any matching page annotation. -/
def get_field_info (pdf : PdfDoc) : List (Sum FieldInfo RadioGroup) × List String :=
  (List.insertionSort descriptor_le (located_descriptors pdf), dropped_field_ids pdf)

/-- The `field_id` of an emitted descriptor. -/
def descriptor_field_id : Sum FieldInfo RadioGroup → String
  | .inl fi => fi.field_id
  | .inr rg => rg.field_id

/-! ## Embedding of `pptx/ooxml/scripts/validation/docx.py`

The ten individual checks live partly in the shared base validator (not in
this excerpt) and partly in `DOCXSchemaValidator`; `validate()` only
orchestrates them. Each check's outcome for the document under test is
therefore an input boolean, and `validate()` is embedded as the function
computing the returned boolean, the trace of the executed steps, and the
printed paragraph-count comparison. -/

/-- The outcomes of the individual checks for one document, plus the two
paragraph counts that the informational comparison prints. -/
structure DocxChecks where
  validate_xml : Bool
  validate_namespaces : Bool
  validate_unique_ids : Bool
  validate_file_references : Bool
  validate_content_types : Bool
  validate_against_xsd : Bool
  validate_whitespace_preservation : Bool
  validate_deletions : Bool
  validate_insertions : Bool
  validate_all_relationship_ids : Bool
  original_paragraph_count : Nat
  new_paragraph_count : Nat
deriving DecidableEq

/-- Embedding of `compare_paragraph_counts`: the printed line
`\n段落: original → new (±diff)` with an explicit `+` on increases. -/
def compare_paragraph_counts (c : DocxChecks) : String :=
  let diff : Int := (c.new_paragraph_count : Int) - (c.original_paragraph_count : Int)
  let diff_str := if diff > 0 then "+" ++ toString diff else toString diff
  "\n段落: " ++ toString c.original_paragraph_count ++ " → " ++
    toString c.new_paragraph_count ++ " (" ++ diff_str ++ ")"

/-- Result of `DOCXSchemaValidator.validate`: the returned boolean, the
indices of the steps that ran (0–9 the tests, 10 the paragraph-count
comparison), and the comparison line when it was printed. -/
structure ValidateRun where
  result : Bool
  ran : List Nat
  printed_comparison : Option String
deriving DecidableEq

/-- Embedding of `DOCXSchemaValidator.validate`: test 0 short-circuits;
tests 1–9 each run and clear `all_valid` on failure; the paragraph-count
comparison runs last and the conjunction is returned. -/
def DOCX_validate (c : DocxChecks) : ValidateRun :=
  if ¬ c.validate_xml then { result := false, ran := [0], printed_comparison := none }
  else
    let all_valid := true
    let all_valid := if ¬ c.validate_namespaces then false else all_valid
    let all_valid := if ¬ c.validate_unique_ids then false else all_valid
    let all_valid := if ¬ c.validate_file_references then false else all_valid
    let all_valid := if ¬ c.validate_content_types then false else all_valid
    let all_valid := if ¬ c.validate_against_xsd then false else all_valid
    let all_valid := if ¬ c.validate_whitespace_preservation then false else all_valid
    let all_valid := if ¬ c.validate_deletions then false else all_valid
    let all_valid := if ¬ c.validate_insertions then false else all_valid
    let all_valid := if ¬ c.validate_all_relationship_ids then false else all_valid
    { result := all_valid
      ran := [0, 1, 2, 3, 4, 5, 6, 7, 8, 9, 10]
      printed_comparison := some (compare_paragraph_counts c) }

/-! ## Embedding of `slack-gif-creator/core/gif_builder.py`

A frame is its flattened pixel-channel values (`np.ndarray` of one frame,
read as rationals). Palette quantisation and LANCZOS resizing are PIL
library calls, modelled as per-frame function parameters where `save` needs
them; both preserve the number of frames. -/

/-- One GIF frame: the flattened per-pixel channel values. -/
abbrev Frame := List ℚ

/-- Mean absolute per-channel difference of two frames (`np.mean(np.abs(a - b))`
for same-shape arrays). -/
def frame_mean_abs_diff (a b : Frame) : ℚ :=
  ((a.zip b).map (fun p => |p.1 - p.2|)).sum / (a.zip b).length

/-- The similarity score `1 - mean(|prev - curr|) / 255` from
`deduplicate_frames`. -/
def frame_similarity (a b : Frame) : ℚ := 1 - frame_mean_abs_diff a b / 255

/-- The walk inside `deduplicate_frames`: `last` is the last kept frame; a
frame is kept exactly when its similarity to `last` is below the threshold. -/
def dedup_walk (threshold : ℚ) (last : Frame) : List Frame → List Frame
  | [] => []
  | f :: fs =>
    if frame_similarity last f < threshold then f :: dedup_walk threshold f fs
    else dedup_walk threshold last fs

/-- Embedding of `GIFBuilder.deduplicate_frames` (its effect on the frame
list): the first frame is always kept; `removed_count` is the length
difference. Lists with fewer than two frames are returned unchanged. -/
def deduplicate_frames (threshold : ℚ) : List Frame → List Frame
  | [] => []
  | f :: fs => f :: dedup_walk threshold f fs

/-- GIFBuilder state: declared dimensions, frame rate and accumulated
frames. -/
structure GIFBuilder where
  width : Nat
  height : Nat
  fps : Nat
  frames : List Frame

/-- The frame subsequence `[frames[i] for i in range(0, len(frames), k)]`. -/
def stride_frames (frames : List Frame) (k : Nat) : List Frame :=
  (List.range frames.length).filterMap (fun i =>
    if i % k = 0 then frames.get? i else none)

/-- The report `save` returns (the fields the claims are about). -/
structure SaveInfo where
  width : Nat
  height : Nat
  frame_count : Nat
  colors : Nat
  fps : Nat
deriving DecidableEq

/-- Embedding of `GIFBuilder.save`. `resize128` models the LANCZOS resize of
one frame to 128×128 and `quantize` the per-frame palette remap inside
`optimize_colors`; both are frame-count-preserving library calls. The steps:
optional deduplication, the emoji branch (clamp canvas to 128×128, clamp
colors to 48, stride-downsample when more than 12 frames remain), colour
optimisation, and the final report. An empty frame list is the raised
`ValueError`. -/
def GIFBuilder.save (resize128 quantize : Frame → Frame) (b : GIFBuilder)
    (num_colors : Nat := 128) (optimize_for_emoji : Bool := false)
    (remove_duplicates : Bool := false) : Except String SaveInfo :=
  if b.frames.isEmpty then .error "没有要保存的帧。请先使用 add_frame() 添加帧。"
  else
    let frames := if remove_duplicates then deduplicate_frames (mkRat 9995 10000) b.frames else b.frames
    let emoji_resize := optimize_for_emoji ∧ (b.width > 128 ∨ b.height > 128)
    let w := if emoji_resize then 128 else b.width
    let h := if emoji_resize then 128 else b.height
    let frames := if emoji_resize then frames.map resize128 else frames
    let num_colors := if optimize_for_emoji then min num_colors 48 else num_colors
    let frames :=
      if optimize_for_emoji ∧ frames.length > 12 then
        stride_frames frames (max 1 (frames.length / 12))
      else frames
    let optimized := frames.map quantize
    .ok { width := w, height := h, frame_count := optimized.length
          colors := num_colors, fps := b.fps }

/-! ## Embedding of `pptx/scripts/thumbnail.py` grid labels

`create_grids` splits the deck's image list into chunks of
`cols * (cols + 1)` images, passing each chunk's 0-based start index to
`create_grid`, which labels cell `i` with `str(start_slide_num + i)`. Only
the labelling is embedded; drawing is PIL. -/

/-- The labels `create_grid` draws for one chunk: cell `i` gets
`str(start_slide_num + i)`. -/
def create_grid_labels (chunk_len start_slide_num : Nat) : List String :=
  (List.range chunk_len).map (fun i => toString (start_slide_num + i))

/-- The chunk loop of `create_grids`, fuel-recursive over the start index
(`for start_idx in range(0, n, m)` with chunk `paths[start_idx:start_idx+m]`),
concatenating every grid's labels in order. -/
def create_grids_labels_aux (m n : Nat) : Nat → Nat → List String
  | 0, _ => []
  | fuel + 1, start =>
    if start < n then
      create_grid_labels (min m (n - start)) start ++ create_grids_labels_aux m n fuel (start + m)
    else []

/-- All cell labels of the grids `create_grids` produces for an `n`-image
deck at `cols` columns, in deck order (`max_images_per_grid = cols*(cols+1)`). -/
def create_grids_labels (n cols : Nat) : List String :=
  create_grids_labels_aux (cols * (cols + 1)) n n 0

/-! ## Embedding of `slack-gif-creator/core/validators.py` -/

/-- What `validate_gif` reads from the opened image: dimensions, the counted
frames, and the duration metadata (`None` models a missing `duration` key,
defaulted to 100 ms). -/
structure GifImage where
  width : Nat
  height : Nat
  frame_count : Nat
  duration_ms : Option ℚ
deriving DecidableEq

/-- A GIF path as the validator can encounter it: missing, present but
failing to open/read (with the exception text), or readable with a size and
image data. -/
inductive GifOnDisk
  | missing
  | present (size_bytes : Nat) (content : Except String GifImage)

/-- The record `validate_gif` returns: either the error-only dict or the full
result dict. -/
inductive GifReport
  | error_record (msg : String)
  | full (passes : Bool) (width height : Nat) (size_kb : ℚ) (frame_count : Nat)
      (duration_seconds fps : Option ℚ) (is_emoji : Bool) (optimal : Option Bool)
deriving DecidableEq

/-- The dimension policy of `validate_gif`: emoji targets pass when square
and 64–128 px per side; message targets when the aspect ratio is at most 2
and the shorter side is within 320–640 px (a zero side fails, as the infinite
aspect ratio does in the Python). -/
def gif_dim_pass (width height : Nat) (is_emoji : Bool) : Bool :=
  if is_emoji then width = height ∧ 64 ≤ width ∧ width ≤ 128
  else
    if min width height = 0 then false
    else
      ((max width height : ℚ) / (min width height : ℚ) ≤ 2
        ∧ 320 ≤ min width height ∧ min width height ≤ 640)

/-- Embedding of `validate_gif`: a missing file and an unreadable image each
return `(False, error record)` without raising; otherwise the pass boolean is
the dimension policy, and the full record carries the measured metadata. -/
def validate_gif (path : String) (g : GifOnDisk) (is_emoji : Bool := true) :
    Bool × GifReport :=
  match g with
  | .missing => (false, .error_record ("文件未找到: " ++ path))
  | .present _ (.error e) => (false, .error_record ("读取 GIF 失败: " ++ e))
  | .present size_bytes (.ok img) =>
    let duration_ms := img.duration_ms.getD 100
    let total_duration := duration_ms * img.frame_count / 1000
    let fps : Option ℚ := if total_duration > 0 then some (img.frame_count / total_duration) else some 0
    let dim_pass := gif_dim_pass img.width img.height is_emoji
    (dim_pass,
     .full dim_pass img.width img.height ((size_bytes : ℚ) / 1024) img.frame_count
       (some total_duration) fps is_emoji
       (if is_emoji then some (decide (img.width = img.height ∧ img.width = 128)) else none))

/-- Embedding of `is_slack_ready`: the pass boolean of `validate_gif`. -/
def is_slack_ready (path : String) (g : GifOnDisk) (is_emoji : Bool := true) : Bool :=
  (validate_gif path g is_emoji).1

/-! ## Concrete example inputs used by the witnesses and counterexamples -/

/-- A one-slide inventory whose single shape has no pre-edit overflow. -/
def exInventory : Inventory :=
  [("slide-0", [("shape-1", ⟨none, [], [⟨"Hello"⟩]⟩)])]

/-- Post-edit inventory where the shape overflows by 0.05 inches. -/
def exPostBad : Inventory :=
  [("slide-0", [("shape-1", ⟨some (mkRat 5 100), [], [⟨"Hello"⟩]⟩)])]

/-- Post-edit inventory where the shape overflows by 0.005 inches. -/
def exPostOk : Inventory :=
  [("slide-0", [("shape-1", ⟨some (mkRat 5 1000), [], [⟨"Hello"⟩]⟩)])]

/-- The spec's unknown-shape scenario: `slide-0` has shapes 1–3 in the
inventory. -/
def exInventory3 : Inventory :=
  [("slide-0",
    [("shape-1", ⟨none, [], [⟨"Title text"⟩]⟩),
     ("shape-2", ⟨none, [], [⟨"Body"⟩]⟩),
     ("shape-3", ⟨none, [], []⟩)])]

/-- A replacement document referencing the nonexistent `shape-5`. -/
def exReplacements5 : Replacements :=
  [("slide-0", [("shape-5", ⟨some [⟨"New"⟩]⟩)])]

/-- A button field with three declared states. -/
def exBtn3 : PdfField := ⟨"cb3", some "/Btn", false, ["/A", "/B", "/C"], []⟩

/-- A button field with the ordinary two-state list. -/
def exBtnYes : PdfField := ⟨"cb", some "/Btn", false, ["/Yes", "/Off"], []⟩

/-- A PDF whose single text field has a matching page annotation that carries
no `/Rect`. -/
def exPdfNullRect : PdfDoc :=
  ⟨[⟨"f1", some "/Tx", false, [], []⟩], [[⟨[some "f1"], none, none⟩]]⟩

/-- A PDF whose single text field has no matching page annotation at all. -/
def exPdfNoAnnot : PdfDoc :=
  ⟨[⟨"g1", some "/Tx", false, [], []⟩], [[]]⟩

/-- The spec's three-field sorting example: page-1 annotations with rects
starting `[0,700]`, `[0,100]`, `[50,700]`. -/
def exPdfSort : PdfDoc :=
  ⟨[⟨"a", some "/Tx", false, [], []⟩,
    ⟨"b", some "/Tx", false, [], []⟩,
    ⟨"c", some "/Tx", false, [], []⟩],
   [[⟨[some "a"], some (0, 700, 10, 710), none⟩,
     ⟨[some "b"], some (0, 100, 10, 110), none⟩,
     ⟨[some "c"], some (50, 700, 60, 710), none⟩]]⟩

/-- A concrete check-outcome record with one failing test (test 5). -/
def exChecks : DocxChecks :=
  ⟨true, true, true, true, true, false, true, true, true, true, 10, 12⟩

/-- The 200×200 builder holding 20 one-pixel frames. -/
def exBuilder : GIFBuilder := ⟨200, 200, 15, List.replicate 20 [0]⟩

/-- A readable 128×128 image record with 10 frames at 100 ms per frame. -/
def exGifImage : GifImage := ⟨128, 128, 10, some 100⟩

/-! ## Theorems -/

theorem dedup_walk_chain (t : ℚ) :
    ∀ (fs : List Frame) (last : Frame),
      List.Chain (fun a b => frame_similarity a b < t) last (dedup_walk t last fs)
  | [], _ => List.Chain.nil
  | f :: fs, last => by
    unfold dedup_walk
    by_cases h : frame_similarity last f < t
    · simp only [if_pos h]
      exact List.Chain.cons h (dedup_walk_chain t fs f)
    · simp only [if_neg h]
      exact dedup_walk_chain t fs last

theorem dedup_walk_of_chain (t : ℚ) :
    ∀ (l : List Frame) (last : Frame),
      List.Chain (fun a b => frame_similarity a b < t) last l → dedup_walk t last l = l
  | [], _, _ => rfl
  | x :: xs, last, h => by
    rcases List.chain_cons.mp h with ⟨hx, hxs⟩
    unfold dedup_walk
    rw [if_pos hx, dedup_walk_of_chain t xs x hxs]

/-- C8: `deduplicate_frames` is idempotent — re-running it at the same
threshold on its own output returns the list unchanged, so the second run
removes zero frames (the removed count being the length drop). -/
theorem deduplicate_frames_idempotent (t : ℚ) (frames : List Frame) :
    deduplicate_frames t (deduplicate_frames t frames) = deduplicate_frames t frames ∧
    (deduplicate_frames t frames).length -
      (deduplicate_frames t (deduplicate_frames t frames)).length = 0 := by
  have main : deduplicate_frames t (deduplicate_frames t frames) = deduplicate_frames t frames := by
    cases frames with
    | nil => rfl
    | cons f fs =>
      show f :: dedup_walk t f (dedup_walk t f fs) = f :: dedup_walk t f fs
      rw [dedup_walk_of_chain t _ f (dedup_walk_chain t fs f)]
  exact ⟨main, by rw [main, Nat.sub_self]⟩

theorem create_grid_labels_eq (len start : Nat) :
    create_grid_labels len start = (List.range' start len).map toString := by
  unfold create_grid_labels
  rw [List.range'_eq_map_range, List.map_map]
  rfl

theorem create_grids_labels_aux_eq (m n : Nat) :
    ∀ (fuel start : Nat), n - start ≤ fuel * m →
      create_grids_labels_aux m n fuel start = (List.range' start (n - start)).map toString := by
  intro fuel
  induction fuel with
  | zero =>
    intro start h
    have h0 : n - start = 0 := by omega
    simp [create_grids_labels_aux, h0]
  | succ fuel ih =>
    intro start h
    have h' : n - start ≤ fuel * m + m := by rw [Nat.succ_mul] at h; exact h
    rw [create_grids_labels_aux]
    by_cases hlt : start < n
    · rw [if_pos hlt, create_grid_labels_eq, ih (start + m) (by omega)]
      rw [← List.map_append]
      congr 1
      by_cases hc : m ≤ n - start
      · rw [min_eq_left hc]
        have h2 : n - (start + m) = n - start - m := by omega
        have happ := List.range'_append start m (n - start - m) 1
        simp only [one_mul, List.range'_one] at happ
        rw [h2, happ]
        congr 1
        omega
      · rw [min_eq_right (le_of_not_le hc)]
        have h2 : n - (start + m) = 0 := by omega
        simp [h2]
    · rw [if_neg hlt]
      have h0 : n - start = 0 := by omega
      simp [h0]

/-- C9: the numeric label drawn above each thumbnail cell is the 0-based
position of the slide in the deck — the flattened label sequence over all
grids is `["0", "1", ..., str(n-1)]`, the first slide's cell is labeled "0",
and the cell of 1-based slide `N` is labeled `str(N-1)`. -/
theorem thumbnail_labels_zero_based (n cols : Nat) (hcols : 0 < cols) :
    create_grids_labels n cols = (List.range n).map toString ∧
    ∀ N, 1 ≤ N → N ≤ n →
      (create_grids_labels n cols)[N - 1]? = some (toString (N - 1)) := by
  have hm : 1 ≤ cols * (cols + 1) := Nat.mul_pos hcols (by omega)
  have main : create_grids_labels n cols = (List.range n).map toString := by
    unfold create_grids_labels
    rw [create_grids_labels_aux_eq (cols * (cols + 1)) n n 0
      (by simpa using Nat.le_mul_of_pos_right n hm)]
    rw [Nat.sub_zero, ← List.range_eq_range']
  refine ⟨main, fun N h1 hn => ?_⟩
  rw [main, List.getElem?_map, List.getElem?_range (by omega)]
  rfl

/-- C9 witness: a three-slide deck at the default five columns is labeled
`["0", "1", "2"]`. -/
theorem thumbnail_labels_zero_based_witness :
    0 < 5 ∧ create_grids_labels 3 5 = (List.range 3).map toString :=
  ⟨by decide, (thumbnail_labels_zero_based 3 5 (by decide)).1⟩

/-- C6: `DOCXSchemaValidator.validate` returns failure immediately (running
nothing beyond test 0) when the XML well-formedness check fails; otherwise
tests 1–9 all run, the returned boolean is the conjunction of their results,
and the paragraph-count comparison runs afterwards without ever affecting the
returned value. -/
theorem docx_validate_order (c : DocxChecks) :
    (c.validate_xml = false → DOCX_validate c = ⟨false, [0], none⟩) ∧
    (c.validate_xml = true →
      (DOCX_validate c).result =
        (c.validate_namespaces && c.validate_unique_ids && c.validate_file_references &&
          c.validate_content_types && c.validate_against_xsd &&
          c.validate_whitespace_preservation && c.validate_deletions &&
          c.validate_insertions && c.validate_all_relationship_ids) ∧
      (DOCX_validate c).ran = [0, 1, 2, 3, 4, 5, 6, 7, 8, 9, 10] ∧
      (DOCX_validate c).printed_comparison = some (compare_paragraph_counts c)) ∧
    (∀ p q, (DOCX_validate
        { c with original_paragraph_count := p, new_paragraph_count := q }).result =
      (DOCX_validate c).result) := by
  obtain ⟨x, t1, t2, t3, t4, t5, t6, t7, t8, t9, por, pnew⟩ := c
  refine ⟨fun hx => ?_, fun hx => ?_, fun p q => ?_⟩
  · subst hx; rfl
  · subst hx
    refine ⟨?_, rfl, rfl⟩
    cases t1 <;> cases t2 <;> cases t3 <;> cases t4 <;> cases t5 <;> cases t6 <;>
      cases t7 <;> cases t8 <;> cases t9 <;> rfl
  · cases x <;> rfl

/-- C6 witness: a run whose XSD check (test 5) fails still runs every test,
prints the comparison, and returns false. -/
theorem docx_validate_order_witness :
    exChecks.validate_xml = true ∧
    (DOCX_validate exChecks).result = false ∧
    (DOCX_validate exChecks).ran = [0, 1, 2, 3, 4, 5, 6, 7, 8, 9, 10] := by
  have h := (docx_validate_order exChecks).2.1 (by decide)
  exact ⟨by decide, by rw [h.1]; decide, h.2.1⟩

/-- C3 counterexample: for a button field with the three-state list
`["/A", "/B", "/C"]` the extractor assigns no checked/unchecked values at all
and prints no warning — contradicting the claim that any state list whose
length is not 2 falls back to "first checked, second unchecked, with a
warning". -/
theorem checkbox_three_states_counterexample :
    (make_field_dict exBtn3).checked_value = none ∧
    (make_field_dict exBtn3).unchecked_value = none ∧
    (make_field_dict exBtn3).warned = false ∧
    (make_field_dict exBtn3).type = "checkbox" := by
  decide

/-- C3 (amended): for a `/Btn` field, the two-state logic runs only when the
declared state list has exactly two entries: with `/Off` among them the other
formula picks the checked value and `/Off` is unchecked, with no warning;
with two states and no `/Off` the first is assumed checked and the second
unchecked with the printed warning; with any other state-list length no
checked/unchecked values are emitted and no warning is printed. -/
theorem checkbox_state_inference (f : PdfField) (hft : f.ft = some "/Btn") :
    (∀ s0 s1, f.states = [s0, s1] →
      ((s0 = "/Off" ∨ s1 = "/Off") →
        (make_field_dict f).checked_value = some (if s0 ≠ "/Off" then s0 else s1) ∧
        (make_field_dict f).unchecked_value = some "/Off" ∧
        (make_field_dict f).warned = false) ∧
      (¬ (s0 = "/Off" ∨ s1 = "/Off") →
        (make_field_dict f).checked_value = some s0 ∧
        (make_field_dict f).unchecked_value = some s1 ∧
        (make_field_dict f).warned = true)) ∧
    (f.states.length ≠ 2 →
      (make_field_dict f).checked_value = none ∧
      (make_field_dict f).unchecked_value = none ∧
      (make_field_dict f).warned = false) := by
  constructor
  · intro s0 s1 hs
    constructor
    · intro hoff
      simp [make_field_dict, hft, hs, if_pos hoff]
    · intro hoff
      simp [make_field_dict, hft, hs, if_neg hoff]
  · intro hlen
    rcases hstates : f.states with _ | ⟨a, _ | ⟨b, _ | ⟨d, rest⟩⟩⟩
    · simp [make_field_dict, hft, hstates]
    · simp [make_field_dict, hft, hstates]
    · rw [hstates] at hlen
      simp at hlen
    · simp [make_field_dict, hft, hstates]

/-- C3 witness: the state list `["/Yes", "/Off"]` yields
`checked_value = "/Yes"`, `unchecked_value = "/Off"`, no warning. -/
theorem checkbox_state_inference_witness :
    exBtnYes.ft = some "/Btn" ∧
    (make_field_dict exBtnYes).checked_value = some "/Yes" ∧
    (make_field_dict exBtnYes).unchecked_value = some "/Off" ∧
    (make_field_dict exBtnYes).warned = false := by
  have h := ((checkbox_state_inference exBtnYes (by decide)).1 "/Yes" "/Off"
    (by decide)).1 (by decide)
  exact ⟨by decide, by rw [h.1]; decide, h.2.1, h.2.2⟩

theorem stride_frames_one (l : List Frame) : stride_frames l 1 = l := by
  unfold stride_frames
  simp only [Nat.mod_one, ite_true]
  induction l with
  | nil => rfl
  | cons a as ih =>
    rw [List.length_cons, List.range_succ_eq_map, List.filterMap_cons, List.filterMap_map]
    exact congrArg (a :: ·) ih

/-- C7 counterexample: a 200×200 builder with 20 frames saved with
`optimize_for_emoji=true` produces 128×128 output with 48 colors but a
20-frame result — the frame-reduction stride `max(1, 20 // 12) = 1` removes
nothing, so the claimed "frame count at most 12" fails. -/
theorem emoji_save_counterexample :
    GIFBuilder.save id id exBuilder 128 true false =
      .ok ⟨128, 128, 20, 48, 15⟩ ∧ ¬ ((20 : Nat) ≤ 12) :=
  ⟨rfl, by decide⟩

/-- C7 (amended): for a 200×200 builder holding 20 frames, saving with
`optimize_for_emoji=true` yields exactly 128×128 dimensions and a color
count of 48 (within the ≤48 cap), but the frame count of the result is 20,
not at most 12: the stride `max(1, 20 // 12)` is 1 and removes no frame. -/
theorem emoji_save_constraints (resize128 quantize : Frame → Frame) (b : GIFBuilder)
    (hw : b.width = 200) (hh : b.height = 200) (hf : b.frames.length = 20) :
    GIFBuilder.save resize128 quantize b 128 true false =
      .ok ⟨128, 128, 20, 48, b.fps⟩ := by
  have hne : b.frames.isEmpty = false := by
    cases hfr : b.frames with
    | nil => rw [hfr] at hf; simp at hf
    | cons x xs => rfl
  unfold GIFBuilder.save
  simp [hne, hw, hh, hf, stride_frames_one]

/-- C7 witness for the amended claim, at the concrete 20-frame builder. -/
theorem emoji_save_constraints_witness :
    exBuilder.width = 200 ∧ exBuilder.frames.length = 20 ∧
    GIFBuilder.save id id exBuilder 128 true false = .ok ⟨128, 128, 20, 48, 15⟩ :=
  ⟨rfl, by decide, emoji_save_constraints id id exBuilder rfl rfl (by decide)⟩

/-- C10: `validate_gif` is total — a missing file returns `(False, error
record)`, an unreadable image returns `(False, error record)`, and otherwise
the returned pass boolean is exactly the width/height dimension policy, so
file size, frame count and duration never affect it. -/
theorem validate_gif_total (path : String) (is_emoji : Bool) :
    (validate_gif path .missing is_emoji =
      (false, .error_record ("文件未找到: " ++ path))) ∧
    (∀ size e, validate_gif path (.present size (.error e)) is_emoji =
      (false, .error_record ("读取 GIF 失败: " ++ e))) ∧
    (∀ size img, (validate_gif path (.present size (.ok img)) is_emoji).1 =
      gif_dim_pass img.width img.height is_emoji) ∧
    (∀ size size' img img', img.width = img'.width → img.height = img'.height →
      (validate_gif path (.present size (.ok img)) is_emoji).1 =
      (validate_gif path (.present size' (.ok img')) is_emoji).1) := by
  refine ⟨rfl, fun size e => rfl, fun size img => rfl, fun s s' i i' hw hh => ?_⟩
  show gif_dim_pass i.width i.height is_emoji = gif_dim_pass i'.width i'.height is_emoji
  rw [hw, hh]

/-- C10 witness: the pass boolean for a readable 128×128 GIF is insensitive
to the file size (1000 vs 2000 bytes). -/
theorem validate_gif_total_witness :
    (validate_gif "out.gif" (.present 1000 (.ok exGifImage)) true).1 =
      (validate_gif "out.gif" (.present 2000 (.ok exGifImage)) true).1 :=
  (validate_gif_total "out.gif" true).2.2.2 1000 2000 exGifImage exGifImage rfl rfl

/-- C1: the post-edit overflow gate of `apply_replacements`. With validation
passing, (i) any post-edit shape whose overflow exceeds its pre-edit value
(0 when absent) by more than the 0.01-inch tolerance prevents the final save,
and (ii) when every post-edit overflow is within the pre-edit value plus the
tolerance and no formatting warnings exist, the edited presentation is
saved. -/
theorem replace_overflow_gate (reinventory : Inventory → Inventory) (inventory : Inventory)
    (replacements : Replacements)
    (hval : validate_replacements inventory replacements = []) :
    (∀ sk shapes shk v,
      (sk, shapes) ∈
        detect_frame_overflow (reinventory (clear_and_replace inventory replacements)) →
      (shk, v) ∈ shapes →
      v > ((((detect_frame_overflow inventory).lookup sk).getD []).lookup shk).getD 0 +
        mkRat 1 100 →
      ∀ final, apply_replacements reinventory inventory replacements ≠ .saved final) ∧
    ((∀ sk shapes shk v,
      (sk, shapes) ∈
        detect_frame_overflow (reinventory (clear_and_replace inventory replacements)) →
      (shk, v) ∈ shapes →
      v ≤ ((((detect_frame_overflow inventory).lookup sk).getD []).lookup shk).getD 0 +
        mkRat 1 100) →
      collect_warnings (reinventory (clear_and_replace inventory replacements)) = [] →
      apply_replacements reinventory inventory replacements =
        .saved (clear_and_replace inventory replacements)) := by
  constructor
  · intro sk shapes shk v h1 h2 h3 final
    have hmem : (⟨sk, shk,
        ((((detect_frame_overflow inventory).lookup sk).getD []).lookup shk).getD 0, v⟩ :
          OverflowError) ∈
        overflow_errors (detect_frame_overflow inventory)
          (detect_frame_overflow (reinventory (clear_and_replace inventory replacements))) := by
      refine List.mem_flatMap.mpr ⟨(sk, shapes), h1, ?_⟩
      refine List.mem_filterMap.mpr ⟨(shk, v), h2, ?_⟩
      simp only [if_pos h3]
    have hne : overflow_errors (detect_frame_overflow inventory)
        (detect_frame_overflow (reinventory (clear_and_replace inventory replacements))) ≠ [] := by
      intro h
      rw [h] at hmem
      exact absurd hmem (List.not_mem_nil _)
    unfold apply_replacements
    rw [if_neg (by simp [hval])]
    rw [if_pos (Or.inl hne)]
    intro h
    exact ApplyResult.noConfusion h
  · intro hall hwarns
    have hoerrs : overflow_errors (detect_frame_overflow inventory)
        (detect_frame_overflow (reinventory (clear_and_replace inventory replacements))) = [] := by
      refine List.flatMap_eq_nil_iff.mpr (fun s hs => ?_)
      refine List.filterMap_eq_nil_iff.mpr (fun sh hsh => ?_)
      exact if_neg (not_lt.mpr (hall s.1 s.2 sh.1 sh.2 hs hsh))
    unfold apply_replacements
    rw [if_neg (by simp [hval])]
    rw [if_neg (by simp [hoerrs, hwarns])]

/-- C1 witness: with no pre-edit overflow, a post-edit overflow of 0.05
inches blocks the save while 0.005 inches lets the presentation be saved. -/
theorem replace_overflow_gate_witness :
    (∀ final, apply_replacements (fun _ => exPostBad) exInventory [] ≠ .saved final) ∧
    apply_replacements (fun _ => exPostOk) exInventory [] =
      .saved (clear_and_replace exInventory []) := by
  constructor
  · refine (replace_overflow_gate (fun _ => exPostBad) exInventory [] rfl).1
      "slide-0" [("shape-1", mkRat 5 100)] "shape-1" (mkRat 5 100) (by decide) (by decide) ?_
    show mkRat 5 100 > (0 : ℚ) + mkRat 1 100
    rw [zero_add]
    decide
  · refine (replace_overflow_gate (fun _ => exPostOk) exInventory [] rfl).2 ?_ rfl
    intro sk shapes shk v h1 h2
    have h1' : (sk, shapes) = ("slide-0", [("shape-1", mkRat 5 1000)]) :=
      List.mem_singleton.mp h1
    have hsk : sk = "slide-0" := congrArg Prod.fst h1'
    have hshapes : shapes = [("shape-1", mkRat 5 1000)] := congrArg Prod.snd h1'
    subst hsk hshapes
    have h2' : (shk, v) = ("shape-1", mkRat 5 1000) := List.mem_singleton.mp h2
    have hv : v = mkRat 5 1000 := congrArg Prod.snd h2'
    subst hv
    show mkRat 5 1000 ≤ (0 : ℚ) + mkRat 1 100
    rw [zero_add]
    decide

/-- C2: replacement-key validation happens before any shape is mutated. Every
`slide-*` key missing from the inventory contributes an error naming the
slide; every unknown shape key contributes an error listing (with previews)
the inventoried shapes of that slide that have no replacement entry; errors
from all keys are collected together; and a non-empty error list makes
`apply_replacements` raise with exactly that list before the mutation pass
runs. -/
theorem replace_validation_before_mutation (inventory : Inventory)
    (replacements : Replacements) (reinventory : Inventory → Inventory) :
    (∀ sk shapes, (sk, shapes) ∈ replacements → py_startswith sk "slide-" = true →
      inventory.lookup sk = none →
      slide_not_found_error sk ∈ validate_replacements inventory replacements) ∧
    (∀ sk shapes inv_shapes shk r, (sk, shapes) ∈ replacements →
      py_startswith sk "slide-" = true → inventory.lookup sk = some inv_shapes →
      (shk, r) ∈ shapes → inv_shapes.lookup shk = none →
      shape_not_found_error sk shk (unused_with_content inv_shapes shapes) ∈
        validate_replacements inventory replacements) ∧
    (∀ inv_shapes shapes k sd, (k, sd) ∈ inv_shapes →
      (shapes : List (String × ReplShape)).lookup k = none →
      shape_preview k sd ∈ unused_with_content inv_shapes shapes) ∧
    (validate_replacements inventory replacements ≠ [] →
      apply_replacements reinventory inventory replacements =
        .validation_error (validate_replacements inventory replacements)) := by
  refine ⟨?_, ?_, ?_, ?_⟩
  · intro sk shapes h hstart hlk
    refine List.mem_flatMap.mpr ⟨(sk, shapes), h, ?_⟩
    simp [hstart, hlk]
  · intro sk shapes inv_shapes shk r h hstart hlk hmem hlks
    refine List.mem_flatMap.mpr ⟨(sk, shapes), h, ?_⟩
    simp only [hstart, hlk, Bool.true_eq_false, not_true_eq_false, if_false, ite_false]
    refine List.mem_filterMap.mpr ⟨(shk, r), hmem, ?_⟩
    simp [hlks]
  · intro inv_shapes shapes k sd h hlk
    exact List.mem_filterMap.mpr ⟨(k, sd), h, by simp [hlk]⟩
  · intro hne
    unfold apply_replacements
    rw [if_pos hne]

/-- C2 witness: the spec's scenario — `slide-0` holds shapes 1–3, the
replacement document references the unknown `shape-5` — produces the error
that names `shape-5` and lists shapes 1–3 with previews, and
`apply_replacements` raises with that error list. -/
theorem replace_validation_before_mutation_witness :
    shape_not_found_error "slide-0" "shape-5"
        (unused_with_content
          [("shape-1", ⟨none, [], [⟨"Title text"⟩]⟩),
           ("shape-2", ⟨none, [], [⟨"Body"⟩]⟩),
           ("shape-3", ⟨none, [], []⟩)]
          [("shape-5", ⟨some [⟨"New"⟩]⟩)]) ∈
      validate_replacements exInventory3 exReplacements5 ∧
    apply_replacements id exInventory3 exReplacements5 =
      .validation_error (validate_replacements exInventory3 exReplacements5) := by
  constructor
  · exact (replace_validation_before_mutation exInventory3 exReplacements5 id).2.1
      "slide-0" [("shape-5", ⟨some [⟨"New"⟩]⟩)]
      [("shape-1", ⟨none, [], [⟨"Title text"⟩]⟩),
       ("shape-2", ⟨none, [], [⟨"Body"⟩]⟩),
       ("shape-3", ⟨none, [], []⟩)]
      "shape-5" ⟨some [⟨"New"⟩]⟩ (by decide) (by decide) (by decide) (by decide) (by decide)
  · exact (replace_validation_before_mutation exInventory3 exReplacements5 id).2.2.2
      (by decide)

/-- C4 counterexample: a text field whose matching page annotation carries no
`/Rect` is emitted with a resolved page but a null rectangle — contradicting
the claim that every emitted descriptor has a bounding rectangle and is never
emitted with a null location. -/
theorem extractor_null_rect_counterexample :
    (get_field_info exPdfNullRect).1 =
      [Sum.inl { field_id := "f1", type := "text", checked_value := none,
                 unchecked_value := none, warned := false, choice_options := [],
                 page := some 1, rect := none }] := by
  decide

/-- C4 (amended): every emitted descriptor has a resolvable page (radio
groups by construction, ordinary fields via the location filter), and every
non-container field that obtained no matching page annotation is reported in
the dropped-ids diagnostics and excluded from the output; but the rectangle
attached to an emitted ordinary descriptor is the matching annotation's
`/Rect` and can be null when the annotation declares none. -/
theorem extractor_location_invariant (pdf : PdfDoc) :
    (∀ fi, Sum.inl fi ∈ (get_field_info pdf).1 → fi.page.isSome = true) ∧
    (∀ fi, fi ∈ (scan_state pdf).infos.map (·.2) → fi.page = none →
      fi.field_id ∈ (get_field_info pdf).2 ∧ Sum.inl fi ∉ (get_field_info pdf).1) := by
  have hperm := List.perm_insertionSort descriptor_le (located_descriptors pdf)
  constructor
  · intro fi hmem
    have hloc : Sum.inl fi ∈ located_descriptors pdf := hperm.mem_iff.mp hmem
    rcases List.mem_append.mp hloc with h | h
    · obtain ⟨fi', hfi', heq⟩ := List.mem_map.mp h
      have hfe : fi' = fi := Sum.inl.inj heq
      subst hfe
      have := (List.mem_filter.mp hfi').2
      simpa using this
    · obtain ⟨rg, _, heq⟩ := List.mem_map.mp h
      exact Sum.noConfusion heq
  · intro fi hmem hpage
    constructor
    · exact List.mem_map.mpr ⟨fi, List.mem_filter.mpr ⟨hmem, by simp [hpage]⟩, rfl⟩
    · intro hcontra
      have hloc : Sum.inl fi ∈ located_descriptors pdf := hperm.mem_iff.mp hcontra
      rcases List.mem_append.mp hloc with h | h
      · obtain ⟨fi', hfi', heq⟩ := List.mem_map.mp h
        have hfe : fi' = fi := Sum.inl.inj heq
        subst hfe
        have := (List.mem_filter.mp hfi').2
        rw [hpage] at this
        simp at this
      · obtain ⟨rg, _, heq⟩ := List.mem_map.mp h
        exact Sum.noConfusion heq

/-- C4 witness: the field `g1` with no matching annotation anywhere is
reported among the dropped ids and never emitted. -/
theorem extractor_location_invariant_witness :
    "g1" ∈ (get_field_info exPdfNoAnnot).2 ∧
    Sum.inl (make_field_dict ⟨"g1", some "/Tx", false, [], []⟩) ∉
      (get_field_info exPdfNoAnnot).1 := by
  have h := (extractor_location_invariant exPdfNoAnnot).2
    (make_field_dict ⟨"g1", some "/Tx", false, [], []⟩) (by decide) (by decide)
  exact ⟨h.1, h.2⟩

theorem key_le_total (a b : Nat × ℚ × ℚ) : key_le a b ∨ key_le b a := by
  unfold key_le
  rcases lt_trichotomy a.1 b.1 with h | h | h
  · exact Or.inl (Or.inl h)
  · rcases lt_trichotomy a.2.1 b.2.1 with h2 | h2 | h2
    · exact Or.inl (Or.inr ⟨h, Or.inl h2⟩)
    · rcases le_total a.2.2 b.2.2 with h3 | h3
      · exact Or.inl (Or.inr ⟨h, Or.inr ⟨h2, h3⟩⟩)
      · exact Or.inr (Or.inr ⟨h.symm, Or.inr ⟨h2.symm, h3⟩⟩)
    · exact Or.inr (Or.inr ⟨h.symm, Or.inl h2⟩)
  · exact Or.inr (Or.inl h)

theorem key_le_trans (a b c : Nat × ℚ × ℚ) (h1 : key_le a b) (h2 : key_le b c) :
    key_le a c := by
  unfold key_le at h1 h2 ⊢
  rcases h1 with h1 | ⟨e1, h1⟩
  · rcases h2 with h2 | ⟨e2, h2⟩
    · exact Or.inl (h1.trans h2)
    · exact Or.inl (lt_of_lt_of_eq h1 e2)
  · rcases h2 with h2 | ⟨e2, h2⟩
    · exact Or.inl (lt_of_eq_of_lt e1 h2)
    · refine Or.inr ⟨e1.trans e2, ?_⟩
      rcases h1 with h1 | ⟨f1, h1⟩
      · rcases h2 with h2 | ⟨f2, h2⟩
        · exact Or.inl (h1.trans h2)
        · exact Or.inl (lt_of_lt_of_eq h1 f2)
      · rcases h2 with h2 | ⟨f2, h2⟩
        · exact Or.inl (lt_of_eq_of_lt f1 h2)
        · exact Or.inr ⟨f1.trans f2, h1.trans h2⟩

theorem descriptor_le_total (a b : Sum FieldInfo RadioGroup) :
    descriptor_le a b ∨ descriptor_le b a :=
  key_le_total (descriptor_key a) (descriptor_key b)

theorem descriptor_le_trans (a b c : Sum FieldInfo RadioGroup)
    (h1 : descriptor_le a b) (h2 : descriptor_le b c) : descriptor_le a c :=
  key_le_trans (descriptor_key a) (descriptor_key b) (descriptor_key c) h1 h2

/-- C5: `get_field_info` sorts the located field descriptors together with
the assembled radio groups by the composite key (page ascending, negated y
ascending, x ascending) — the output is a permutation of the located
descriptors that is sorted under `descriptor_le`; and the spec's three
page-1 rects `[0,700]`, `[0,100]`, `[50,700]` come out in the order
y=700/x=0, y=700/x=50, y=100. -/
theorem extractor_sort_order :
    (∀ pdf : PdfDoc,
      List.Sorted descriptor_le (get_field_info pdf).1 ∧
      List.Perm (get_field_info pdf).1 (located_descriptors pdf)) ∧
    (get_field_info exPdfSort).1.map descriptor_field_id = ["a", "c", "b"] := by
  refine ⟨fun pdf => ⟨?_, List.perm_insertionSort _ _⟩, by decide⟩
  haveI h1 : IsTotal (Sum FieldInfo RadioGroup) descriptor_le := ⟨descriptor_le_total⟩
  haveI h2 : IsTrans (Sum FieldInfo RadioGroup) descriptor_le := ⟨descriptor_le_trans⟩
  exact List.sorted_insertionSort descriptor_le (located_descriptors pdf)

end Skills
